import Mathlib

/-!
Shallow embedding of the GoHokuyoLidar SCIP2.0 driver
(src/gohokuyolidar.go) in Lean 4.

Modelling conventions:
- Go `byte` values are `Nat` (always < 256 on real inputs); Go strings are
  raw byte sequences, so a Go string of bytes is modelled as `List Nat`,
  and Go string comparison is byte-list equality.  Human-readable error
  messages keep Lean `String`.
- The serial transport is modelled as the finite list of bytes it will
  deliver; `serialPort.Read` into a buffer of size `n` is an exact read of
  `n` bytes from the front of that list (a shorter stream is the short
  read the Go code turns into an error).  Transport writes always succeed.
- Fallible Go functions returning `error` become `Outcome`: `ok` carries
  the results (and the unread remainder of the stream), `error` carries
  the message, and `panicked` marks a Go runtime panic (negative
  `make([]byte, n)` length, out-of-range slice of a nil buffer, nil
  pointer dereference).
- Go `int` is 64-bit; every quantity in this driver is far below 2^63, so
  `int` fields and parameters are `Int` (or `Nat` where the source value
  is always a byte/count) without an explicit wrap.  Go byte subtraction
  in `decode` wraps mod 256 and is modelled with an explicit `% 256`.
-/

namespace GoHokuyoLidar

/-- Byte constants from the source (src/gohokuyolidar.go lines 19-47). -/
def lf : Nat := 0x0a

/-- Tag byte `M`. -/
def mTag : Nat := 0x4d

/-- Tag byte `B`. -/
def bTag : Nat := 0x42

/-- Tag byte `G`. -/
def gTag : Nat := 0x47

/-- Encoding byte `D`: three-character encoding. -/
def threeEncoding : Nat := 0x44

/-- Encoding byte `S`: two-character encoding. -/
def twoEncoding : Nat := 0x53

/-- Result of running a fallible, possibly panicking Go computation. -/
inductive Outcome (α : Type) where
  | ok (val : α)
  | error (msg : String)
  | panicked
deriving DecidableEq

/-- The `HokuyoLidar` struct (source lines 65-84).  The `*serial.Port`
pointer is modelled by `portOpen` (whether the pointer is non-nil); port
name, baud rate and options carry no protocol behaviour and are omitted. -/
structure HokuyoLidar where
  portOpen : Bool
  MotorActive : Bool
  Connected : Bool
  Scanning : Bool
  startStep : Int
  endStep : Int
  clusterCount : Int
  scanInterval : Int
  encodingType : Nat
  headSize : Int
  requestTag : Nat
deriving DecidableEq

/-- `NewHokuyoLidar` (source lines 86-90): every scan field starts at zero,
no port is open, nothing is connected. -/
def NewHokuyoLidar : HokuyoLidar :=
  { portOpen := false, MotorActive := false, Connected := false,
    Scanning := false, startStep := 0, endStep := 0, clusterCount := 0,
    scanInterval := 0, encodingType := 0, headSize := 0, requestTag := 0 }

/-- `readFixedResponse` (source lines 693-703): allocates a buffer of
`size` bytes (a negative size makes `make([]byte, size)` panic), reads
exactly that many bytes from the stream, and treats a shortfall as an
error. -/
def readFixedResponse (size : Int) (s : List Nat) :
    Outcome (List Nat × List Nat) :=
  if size < 0 then Outcome.panicked
  else if s.length < size.toNat then
    Outcome.error "Failed to read all expected bytes"
  else Outcome.ok (s.take size.toNat, s.drop size.toNat)

/-- Rendering of a Go byte string for interpolation into error messages
(`fmt.Errorf` with `%v` on a string). -/
def bytesToString (l : List Nat) : String :=
  String.mk (l.map Char.ofNat)

/-- The `healthStatus` table (source lines 53-63); keys are the raw
two-byte codes (`"00"` is `[0x30, 0x30]` and so on). -/
def healthStatus : List (List Nat × String) :=
  [([0x30, 0x30], "Command received without any Error"),
   ([0x30, 0x31], "Starting Step has non-numeric value"),
   ([0x30, 0x32], "End Step has non-numeric value"),
   ([0x30, 0x33], "Cluster Count has non-numeric value"),
   ([0x30, 0x34], "End Step is out of range"),
   ([0x30, 0x35], "End Step is smaller than Starting Step"),
   ([0x30, 0x36], "Scan Interval has non-numeric value"),
   ([0x30, 0x37], "Number of Scan has non-numeric value"),
   ([0x39, 0x38], "Resumption of process after confirming normal laser operation")]

/-- `statusCheck` (source lines 705-713): `none` is a nil Go error
(success); `some msg` is the formatted error. -/
def statusCheck (code : List Nat) : Option String :=
  if code = [0x30, 0x30] ∨ code = [0x39, 0x39] then none
  else
    match List.lookup code healthStatus with
    | some desc =>
        some ("A known error has occured: " ++ bytesToString code ++ ": " ++ desc)
    | none => some ("An unknown error has occured: " ++ bytesToString code)

/-- `decode` (source lines 750-758): every input byte first has `0x30`
subtracted with Go byte wraparound (`% 256`), then is folded in as six
more low-order bits (`value = value << 6 | byte`). -/
def decode (encoded : List Nat) : Nat :=
  encoded.foldl (fun acc v => (acc <<< 6) ||| ((v + 208) % 256)) 0

/-- `zeroPadString` (source lines 735-748): a string longer than the
desired length is cut to it; a shorter one is prefixed with `'0'` bytes
one at a time until the lengths agree, which yields exactly the
`replicate` below. -/
def zeroPadString (desiredLen : Nat) (str : List Nat) : List Nat :=
  if desiredLen < str.length then str.take desiredLen
  else List.replicate (desiredLen - str.length) 0x30 ++ str

/-- `strconv.Itoa`: decimal ASCII rendering of a Go int, with a leading
`'-'` byte for negatives. -/
def itoa (n : Int) : List Nat :=
  if n < 0 then 0x2d :: (Nat.toDigits 10 n.natAbs).map Char.toNat
  else (Nat.toDigits 10 n.toNat).map Char.toNat

/-- Command frame built by `MDMSCmd` (source lines 152-183): tag `M`,
encoding byte chosen from `three`, five zero-padded decimal fields, the
trailing string cut to at most 16 bytes, and one line feed. -/
def MDMSCmdFrame (three : Bool)
    (startStep endStep clusterCount scanInterval numberOfScans : Int)
    (characters : List Nat) : List Nat :=
  let ss := zeroPadString 4 (itoa startStep)
  let es := zeroPadString 4 (itoa endStep)
  let cc := zeroPadString 2 (itoa clusterCount)
  let si := zeroPadString 1 (itoa scanInterval)
  let ns := zeroPadString 2 (itoa numberOfScans)
  let characters := if characters.length > 16 then characters.take 16 else characters
  let encode := if three then threeEncoding else twoEncoding
  mTag :: encode :: (ss ++ es ++ cc ++ si ++ ns ++ characters ++ [lf])

/-- Command frame built by `GDGSCommand` (source lines 215-239). -/
def GDGSCommandFrame (three : Bool)
    (startStep endStep clusterCount : Int) (characters : List Nat) : List Nat :=
  let ss := zeroPadString 4 (itoa startStep)
  let es := zeroPadString 4 (itoa endStep)
  let cc := zeroPadString 2 (itoa clusterCount)
  let characters := if characters.length > 16 then characters.take 16 else characters
  let encode := if three then threeEncoding else twoEncoding
  gTag :: encode :: (ss ++ es ++ cc ++ characters ++ [lf])

/-- Command frame built by `BMCommand` (source lines 271-274): tag bytes
`B` `M`, the trailing string appended verbatim (no truncation in the
source), and one line feed. -/
def BMCommandFrame (chars : List Nat) : List Nat :=
  bTag :: mTag :: (chars ++ [lf])

/-- `MDMSCmd` (source lines 152-208).  The frame is written to the
transport (writes are modelled as succeeding), then a header of
`21 + len(characters)` bytes is read (after the trailing string has been
cut to 16 bytes), the status is taken at `head[headLen-5 : headLen-3]`,
and on success the scan configuration is stored - with `encodingType`
unconditionally set to `threeEncoding` as in source line 204. -/
def MDMSCmd (h : HokuyoLidar) (three : Bool)
    (startStep endStep clusterCount scanInterval numberOfScans : Int)
    (characters0 : List Nat) (s : List Nat) :
    Outcome (HokuyoLidar × List Nat) :=
  let characters := if characters0.length > 16 then characters0.take 16 else characters0
  let _cmd := MDMSCmdFrame three startStep endStep clusterCount scanInterval
      numberOfScans characters0
  let headLen : Nat := 21 + characters.length
  match readFixedResponse (headLen : Int) s with
  | Outcome.panicked => Outcome.panicked
  | Outcome.error _ =>
      Outcome.error "Err in scan init: Failed to read all expected bytes"
  | Outcome.ok (head, s1) =>
    match statusCheck ((head.drop (headLen - 5)).take 2) with
    | some e => Outcome.error e
    | none =>
        Outcome.ok
          ({ h with
              startStep := startStep, endStep := endStep,
              clusterCount := clusterCount, scanInterval := scanInterval,
              encodingType := threeEncoding, headSize := (headLen : Int),
              requestTag := mTag },
           s1)

/-- `GDGSCommand` (source lines 215-263).  Header is `18 + len(characters)`
bytes, status at `head[headLen-5 : headLen-3]`; on success the scan
configuration is stored (the scan interval is left untouched and
`encodingType` is unconditionally `threeEncoding`, source line 259). -/
def GDGSCommand (h : HokuyoLidar) (three : Bool)
    (startStep endStep clusterCount : Int)
    (characters0 : List Nat) (s : List Nat) :
    Outcome (HokuyoLidar × List Nat) :=
  let characters := if characters0.length > 16 then characters0.take 16 else characters0
  let _cmd := GDGSCommandFrame three startStep endStep clusterCount characters0
  let headLen : Nat := 18 + characters.length
  match readFixedResponse (headLen : Int) s with
  | Outcome.panicked => Outcome.panicked
  | Outcome.error e => Outcome.error e
  | Outcome.ok (head, s1) =>
    match statusCheck ((head.drop (headLen - 5)).take 2) with
    | some e => Outcome.error e
    | none =>
        Outcome.ok
          ({ h with
              startStep := startStep, endStep := endStep,
              clusterCount := clusterCount, encodingType := threeEncoding,
              headSize := (headLen : Int), requestTag := gTag },
           s1)

/-- `Disconnect` (source lines 119-130): a connected lidar is refused with
the (copy-pasted) "already connected" error; otherwise `serialPort.Reset`
runs - a nil pointer dereference and hence a panic when no port was ever
opened - then the port is closed (modelled as succeeding) and `Connected`
is cleared. -/
def Disconnect (h : HokuyoLidar) : Outcome HokuyoLidar :=
  if h.Connected then Outcome.error "Lidar is already connected"
  else if h.portOpen then Outcome.ok { h with Connected := false }
  else Outcome.panicked

/-- One pass of the scan-payload loop shared by `GetDistance` (source
lines 586-597) and `GetDistanceAndIntensity` (lines 648-659): read a
66-byte chunk (64 payload bytes plus two terminator bytes), append its
first 64 bytes, and stop once the chunk's bytes 13-14 read `"00"`.
The loop runs until the stream is exhausted; since every pass consumes 66
bytes, the fuel `s.length + 1` supplied by `readScanChunks` is never
spent, and the fuel-0 sentinel is unreachable. -/
def readScanChunksAux : Nat → List Nat → Outcome (List Nat × List Nat)
  | 0, _ => Outcome.panicked
  | fuel + 1, s =>
    if s.length < 66 then
      Outcome.error "Failed to read data chunk during scan: Failed to read all expected bytes"
    else
      let chungus := s.take 66
      let rest := s.drop 66
      if (chungus.drop 13).take 2 = [0x30, 0x30] then
        Outcome.ok (chungus.take 64, rest)
      else
        match readScanChunksAux fuel rest with
        | Outcome.ok (more, rest2) => Outcome.ok (chungus.take 64 ++ more, rest2)
        | Outcome.error e => Outcome.error e
        | Outcome.panicked => Outcome.panicked

/-- The chunk-reassembly loop: returns the accumulated payload and the
unread remainder of the stream. -/
def readScanChunks (s : List Nat) : Outcome (List Nat × List Nat) :=
  readScanChunksAux (s.length + 1) s

/-- The demultiplexing loop of `GetDistance` (source lines 608-617):
bytes are gathered until `scanSize` of them are in hand, each full group
is decoded, and a trailing group shorter than `scanSize` is dropped. -/
def distLoop (scanSize : Nat) : List Nat → List Nat → List Nat
  | [], _ => []
  | v :: rest, dist =>
    if (dist ++ [v]).length = scanSize then
      decode (dist ++ [v]) :: distLoop scanSize rest []
    else distLoop scanSize rest (dist ++ [v])

/-- `GetDistance` (source lines 562-619).  Note two faithful quirks:
there is no precondition check, so a session whose `requestTag` was never
set computes `headSize - 10 = -10` and panics in `make`; and the error of
the six-byte timestamp read is ignored (source line 583), so a short read
there leaves `encodedTime` nil and `encodedTime[0:4]` panics.  The final
one-byte line-feed read (line 599) discards both its result and its
error. -/
def GetDistance (h : HokuyoLidar) (s : List Nat) :
    Outcome (List Nat × Nat) :=
  let resLen : Int := if h.requestTag = mTag then 16 else h.headSize - 10
  match readFixedResponse resLen s with
  | Outcome.panicked => Outcome.panicked
  | Outcome.error e => Outcome.error e
  | Outcome.ok (_, s1) =>
  match readFixedResponse 4 s1 with
  | Outcome.panicked => Outcome.panicked
  | Outcome.error e => Outcome.error e
  | Outcome.ok (statusAndJunk, s2) =>
  match statusCheck (statusAndJunk.take 2) with
  | some e => Outcome.error e
  | none =>
  match readFixedResponse 6 s2 with
  | Outcome.panicked => Outcome.panicked
  | Outcome.error _ => Outcome.panicked
  | Outcome.ok (encodedTime, s3) =>
  let timestamp := decode (encodedTime.take 4)
  match readScanChunks s3 with
  | Outcome.panicked => Outcome.panicked
  | Outcome.error e => Outcome.error e
  | Outcome.ok (data, _) =>
  let scanSize := if h.encodingType = threeEncoding then 3 else 2
  Outcome.ok (distLoop scanSize data [], timestamp)

/-- The demultiplexing loop of `GetDistanceAndIntensity` (source lines
663-679): bytes are gathered in groups of three regardless of the
configured encoding; the group counter starts at 1 and odd-numbered
groups are decoded as distances, even-numbered ones as intensities; a
trailing group shorter than three bytes is dropped. -/
def diLoop : List Nat → List Nat → Nat → List Nat × List Nat
  | [], _, _ => ([], [])
  | v :: rest, measure, count =>
    if (measure ++ [v]).length = 3 then
      let p := diLoop rest [] (count + 1)
      if count % 2 ≠ 0 then (decode (measure ++ [v]) :: p.1, p.2)
      else (p.1, decode (measure ++ [v]) :: p.2)
    else diLoop rest (measure ++ [v]) count

/-- `GetDistanceAndIntensity` (source lines 621-682).  Every read before
the payload loop checks its error (unlike `GetDistance`, the timestamp
read error is handled, lines 642-645); the final one-byte read again
discards result and error. -/
def GetDistanceAndIntensity (h : HokuyoLidar) (s : List Nat) :
    Outcome (List Nat × List Nat × Nat) :=
  let resLen : Int := if h.requestTag = mTag then h.headSize else h.headSize - 10
  match readFixedResponse resLen s with
  | Outcome.panicked => Outcome.panicked
  | Outcome.error e => Outcome.error ("Failed to read reponse header: " ++ e)
  | Outcome.ok (_, s1) =>
  match readFixedResponse 4 s1 with
  | Outcome.panicked => Outcome.panicked
  | Outcome.error e => Outcome.error ("Failed to read status of scan: " ++ e)
  | Outcome.ok (statusAndJunk, s2) =>
  match statusCheck (statusAndJunk.take 2) with
  | some e => Outcome.error e
  | none =>
  match readFixedResponse 6 s2 with
  | Outcome.panicked => Outcome.panicked
  | Outcome.error e => Outcome.error ("Failed to read timestamp: " ++ e)
  | Outcome.ok (encodedTime, s3) =>
  let timestamp := decode (encodedTime.take 4)
  match readScanChunks s3 with
  | Outcome.panicked => Outcome.panicked
  | Outcome.error e => Outcome.error e
  | Outcome.ok (data, _) =>
  let p := diLoop data [] 1
  Outcome.ok (p.1, p.2, timestamp)

/-- Splits a byte list into its consecutive complete 3-byte groups,
dropping a shorter remainder; used to characterise `diLoop`. -/
def groups3 : List Nat → List (List Nat)
  | a :: b :: c :: rest => [a, b, c] :: groups3 rest
  | _ => []

/-- Deals a list into two lists, first element first; used to
characterise the distance/intensity alternation of `diLoop`. -/
def alternate {α : Type} : List α → List α × List α
  | [] => ([], [])
  | x :: rest => (x :: (alternate rest).2, (alternate rest).1)

/-! ## Sanity checks mirroring the repository's own Go tests -/

/-- The decode test from src/gohokuyolidar_test.go. -/
theorem decode_matches_go_test : decode [0x6d, 0x32, 0x40, 0x30] = 16000000 := by
  decide

/-- The zero-padding tests from src/gohokuyolidar_test.go. -/
theorem zeroPadString_matches_go_test :
    zeroPadString 4 (itoa 10) = [0x30, 0x30, 0x31, 0x30]
    ∧ zeroPadString 4 (itoa 555555) = [0x35, 0x35, 0x35, 0x35]
    ∧ zeroPadString 8 (itoa 413921) =
        [0x30, 0x30, 0x34, 0x31, 0x33, 0x39, 0x32, 0x31] := by
  refine ⟨by decide, by decide, by decide⟩

/-! ## Shared helper lemmas -/

/-- Length of the 16-byte truncation used by `MDMSCmd` and `GDGSCommand`. -/
theorem length_trunc16 (chars : List Nat) :
    (if chars.length > 16 then chars.take 16 else chars).length
      = min chars.length 16 := by
  split
  · simp only [List.length_take]
    omega
  · omega

/-- Merging six low-order bits: `a <<< 6 ||| b = a * 64 + b` when `b < 64`. -/
theorem shiftLeft6_lor_eq_add (a b : Nat) (hb : b < 64) :
    a <<< 6 ||| b = a * 64 + b := by
  have h := Nat.mul_add_lt_is_or (i := 6) (b := b) (by norm_num; omega) a
  rw [Nat.shiftLeft_eq]
  calc a * 2 ^ 6 ||| b = 2 ^ 6 * a ||| b := by rw [Nat.mul_comm]
    _ = 2 ^ 6 * a + b := h.symm
    _ = a * 64 + b := by ring

/-! ## Claim theorems -/

/-- C5: `statusCheck` classifies exactly the codes `"00"` (`[0x30,0x30]`)
and `"99"` (`[0x39,0x39]`) as success, even though `"00"` also sits in the
known-error table; every other code present in `healthStatus` yields an
error message carrying both the raw code and the table's description
(in particular `"05"` maps to "End Step is smaller than Starting Step");
every code absent from the table yields an unknown-error message that
still carries the raw code. -/
theorem c5_status_classification :
    (∀ code, statusCheck code = none ↔ code = [0x30, 0x30] ∨ code = [0x39, 0x39])
    ∧ (∀ code desc, code ≠ [0x30, 0x30] → code ≠ [0x39, 0x39] →
        List.lookup code healthStatus = some desc →
        statusCheck code =
          some ("A known error has occured: " ++ bytesToString code ++ ": " ++ desc))
    ∧ statusCheck [0x30, 0x35] =
        some "A known error has occured: 05: End Step is smaller than Starting Step"
    ∧ (∀ code, code ≠ [0x30, 0x30] → code ≠ [0x39, 0x39] →
        List.lookup code healthStatus = none →
        statusCheck code =
          some ("An unknown error has occured: " ++ bytesToString code)) := by
  refine ⟨?_, ?_, by decide, ?_⟩
  · intro code
    by_cases hc : code = [0x30, 0x30] ∨ code = [0x39, 0x39]
    · simp [statusCheck, hc]
    · rw [statusCheck, if_neg hc]
      cases hl : List.lookup code healthStatus <;> simp [hc]
  · intro code desc h1 h2 hl
    rw [statusCheck, if_neg (by simp [h1, h2]), hl]
  · intro code h1 h2 hl
    rw [statusCheck, if_neg (by simp [h1, h2]), hl]

/-- C5 witness: the classification theorem evaluated at the known code
`"05"` and the unknown code `"77"`. -/
theorem c5_status_classification_witness :
    statusCheck [0x30, 0x35] =
      some ("A known error has occured: " ++ bytesToString [0x30, 0x35] ++ ": "
        ++ "End Step is smaller than Starting Step")
    ∧ statusCheck [0x37, 0x37] =
      some ("An unknown error has occured: " ++ bytesToString [0x37, 0x37]) :=
  ⟨c5_status_classification.2.1 [0x30, 0x35] "End Step is smaller than Starting Step"
      (by decide) (by decide) (by decide),
   c5_status_classification.2.2.2 [0x37, 0x37] (by decide) (by decide) (by decide)⟩

/-- C6: `decode` folds its bytes left to right, each contributing six
bits via `value = value <<< 6 ||| (byte - 0x30)` (byte subtraction wraps
mod 256); consequently the two-byte encoding of any `v ≤ 4095` and the
three-byte encoding of any `v ≤ 262143` round-trip through `decode`. -/
theorem c6_decode_roundtrip :
    (∀ l b, decode (l ++ [b]) = decode l <<< 6 ||| ((b + 208) % 256))
    ∧ (∀ v, v ≤ 4095 →
        decode [0x30 + ((v >>> 6) &&& 63), 0x30 + (v &&& 63)] = v)
    ∧ (∀ v, v ≤ 262143 →
        decode [0x30 + ((v >>> 12) &&& 63), 0x30 + ((v >>> 6) &&& 63),
          0x30 + (v &&& 63)] = v) := by
  have hand : ∀ x : Nat, x &&& 63 = x % 64 := by
    intro x
    have h := Nat.and_pow_two_sub_one_eq_mod x 6
    norm_num at h
    exact h
  refine ⟨?_, ?_, ?_⟩
  · intro l b
    simp [decode, List.foldl_append]
  · intro v hv
    have h6 : v >>> 6 = v / 64 := by rw [Nat.shiftRight_eq_div_pow]
    simp only [decode, List.foldl_cons, List.foldl_nil, hand, h6,
      Nat.zero_shiftLeft, Nat.zero_or]
    rw [shiftLeft6_lor_eq_add _ _ (by omega)]
    omega
  · intro v hv
    have h6 : v >>> 6 = v / 64 := by rw [Nat.shiftRight_eq_div_pow]
    have h12 : v >>> 12 = v / 4096 := by rw [Nat.shiftRight_eq_div_pow]
    simp only [decode, List.foldl_cons, List.foldl_nil, hand, h6, h12,
      Nat.zero_shiftLeft, Nat.zero_or]
    rw [shiftLeft6_lor_eq_add _ _ (by omega), shiftLeft6_lor_eq_add _ _ (by omega)]
    omega

/-- C6 witness: the round trips evaluated at `v = 1234` and `v = 123456`. -/
theorem c6_decode_roundtrip_witness :
    decode [0x30 + ((1234 >>> 6) &&& 63), 0x30 + (1234 &&& 63)] = 1234
    ∧ decode [0x30 + ((123456 >>> 12) &&& 63), 0x30 + ((123456 >>> 6) &&& 63),
        0x30 + (123456 &&& 63)] = 123456 :=
  ⟨c6_decode_roundtrip.2.1 1234 (by norm_num),
   c6_decode_roundtrip.2.2 123456 (by norm_num)⟩

/-- C3 counterexample: on a session that never completed a scan-initiating
command (`NewHokuyoLidar`: `requestTag` and `headSize` are zero),
`GetDistance` does not return any error value - it panics, because the
unchecked header length `headSize - 10 = -10` is handed to
`make([]byte, -10)`. -/
theorem c3_precondition_cex :
    GetDistance NewHokuyoLidar [] = Outcome.panicked := by decide

/-- C3 amended: calling `GetDistance` on a session that has never
completed a scan-initiating command performs no precondition check at
all; whatever the transport holds, it computes the negative header
length `headSize - 10 = -10` and panics allocating the read buffer,
instead of reporting a precondition error. -/
theorem c3_precondition_amended :
    ∀ s : List Nat, GetDistance NewHokuyoLidar s = Outcome.panicked := by
  intro s
  simp [GetDistance, NewHokuyoLidar, readFixedResponse, mTag]

/-- C4 code-bug evidence: `GetDistance` ignores the error of the six-byte
timestamp read (source line 583); on a stream that ends after a good
header and a success status, the claim demands a propagated read error,
but the code panics slicing the nil timestamp buffer. -/
theorem c4_timestamp_read_ignored :
    GetDistance { NewHokuyoLidar with requestTag := mTag }
        (List.replicate 16 0x30 ++ [0x30, 0x30, 0x30, 0x30] ++ [0x30, 0x30, 0x30])
      = Outcome.panicked := by decide

/-- C7 code-bug evidence: a successful `MDMSCmd` requesting two-character
encoding (`three = false`) still stores `threeEncoding` in the session's
scan configuration (source line 204); the remaining fields do hold the
caller-supplied values. -/
theorem c7_encoding_not_stored :
    MDMSCmd NewHokuyoLidar false 10 20 1 0 1 [] (List.replicate 21 0x30)
      = Outcome.ok
          ({ NewHokuyoLidar with
              startStep := 10, endStep := 20, clusterCount := 1,
              scanInterval := 0, encodingType := threeEncoding,
              headSize := 21, requestTag := mTag },
           [])
    ∧ threeEncoding ≠ twoEncoding := ⟨by decide, by decide⟩

/-- C8 code-bug evidence: `Disconnect` on a connected session is refused
with the inverted-guard error "Lidar is already connected" (source line
121); the transport is not closed and the session stays connected,
contradicting both the claim and the function's own doc comment. -/
theorem c8_disconnect_rejects_connected :
    Disconnect { NewHokuyoLidar with Connected := true, portOpen := true }
      = Outcome.error "Lidar is already connected" := by decide

/-- C9 counterexample: `BMCommand` does not truncate its trailing string;
a 17-byte trailing string appears in the written frame in full, and the
frame differs from the one a 16-byte truncation would produce. -/
theorem c9_bm_no_truncation_cex :
    BMCommandFrame (List.replicate 17 0x41)
        = bTag :: mTag :: (List.replicate 17 0x41 ++ [lf])
    ∧ BMCommandFrame (List.replicate 17 0x41)
        ≠ bTag :: mTag :: ((List.replicate 17 0x41).take 16 ++ [lf]) :=
  ⟨by decide, by decide⟩

/-- C9 amended: `MDMSCmd` and `GDGSCommand` silently truncate the
trailing string to its first 16 bytes before the frame (tag, encoded
fields, trailing string, single line-feed terminator) is written, but
`BMCommand` writes its trailing string verbatim, without truncation. -/
theorem c9_truncation_amended :
    (∀ (three : Bool) (a b c d e : Int) (chars : List Nat),
      MDMSCmdFrame three a b c d e chars
        = mTag :: (if three then threeEncoding else twoEncoding) ::
            (zeroPadString 4 (itoa a) ++ zeroPadString 4 (itoa b)
              ++ zeroPadString 2 (itoa c) ++ zeroPadString 1 (itoa d)
              ++ zeroPadString 2 (itoa e) ++ chars.take 16 ++ [lf]))
    ∧ (∀ (three : Bool) (a b c : Int) (chars : List Nat),
      GDGSCommandFrame three a b c chars
        = gTag :: (if three then threeEncoding else twoEncoding) ::
            (zeroPadString 4 (itoa a) ++ zeroPadString 4 (itoa b)
              ++ zeroPadString 2 (itoa c) ++ chars.take 16 ++ [lf]))
    ∧ (∀ chars : List Nat, BMCommandFrame chars = bTag :: mTag :: (chars ++ [lf])) := by
  refine ⟨?_, ?_, fun chars => rfl⟩
  · intro three a b c d e chars
    by_cases hc : chars.length > 16
    · simp [MDMSCmdFrame, hc]
    · have : chars.take 16 = chars := List.take_of_length_le (by omega)
      simp [MDMSCmdFrame, hc, this]
  · intro three a b c chars
    by_cases hc : chars.length > 16
    · simp [GDGSCommandFrame, hc]
    · have : chars.take 16 = chars := List.take_of_length_le (by omega)
      simp [GDGSCommandFrame, hc, this]



/-- C2 counterexample: with a 17-byte trailing string, `MDMSCmd` reads a
header of only 37 = 21 + 16 bytes (the trailing string is truncated to 16
bytes before the header length is computed), not 21 + 17 = 38: the whole
37-byte stream is consumed and the stored header size is 37. -/
theorem c2_header_length_cex :
    MDMSCmd NewHokuyoLidar true 0 0 0 0 0 (List.replicate 17 0x41)
        (List.replicate 37 0x30)
      = Outcome.ok
          ({ NewHokuyoLidar with
              startStep := 0, endStep := 0, clusterCount := 0,
              scanInterval := 0, encodingType := threeEncoding,
              headSize := 37, requestTag := mTag },
           [])
    ∧ (37 : Int) ≠ 21 + 17 := ⟨by decide, by decide⟩

/-- C2 amended: for trailing strings of at most 16 bytes the header read
is exactly `21 + len(trailing)` for `MDMSCmd` and `18 + len(trailing)`
for `GDGSCommand`; in general the trailing string is first truncated to
16 bytes, so the header lengths are `21 + min(len, 16)` and
`18 + min(len, 16)`, a shorter stream is a read error, and on success the
2-character status code was taken at bytes `headLen - 5` up to
`headLen - 3` of the header, a fixed negative offset from its end. -/
theorem c2_header_length_amended :
    (∀ (h : HokuyoLidar) (three : Bool) (a b c d e : Int) (chars s : List Nat)
        (h2 : HokuyoLidar) (rest : List Nat),
      MDMSCmd h three a b c d e chars s = Outcome.ok (h2, rest) →
        rest = s.drop (21 + min chars.length 16)
        ∧ statusCheck (((s.take (21 + min chars.length 16)).drop
            (21 + min chars.length 16 - 5)).take 2) = none)
    ∧ (∀ (h : HokuyoLidar) (three : Bool) (a b c d e : Int) (chars s : List Nat),
        s.length < 21 + min chars.length 16 →
        MDMSCmd h three a b c d e chars s
          = Outcome.error "Err in scan init: Failed to read all expected bytes")
    ∧ (∀ (h : HokuyoLidar) (three : Bool) (a b c : Int) (chars s : List Nat)
        (h2 : HokuyoLidar) (rest : List Nat),
      GDGSCommand h three a b c chars s = Outcome.ok (h2, rest) →
        rest = s.drop (18 + min chars.length 16)
        ∧ statusCheck (((s.take (18 + min chars.length 16)).drop
            (18 + min chars.length 16 - 5)).take 2) = none)
    ∧ (∀ (h : HokuyoLidar) (three : Bool) (a b c : Int) (chars s : List Nat),
        s.length < 18 + min chars.length 16 →
        GDGSCommand h three a b c chars s
          = Outcome.error "Failed to read all expected bytes") := by
  refine ⟨?_, ?_, ?_, ?_⟩
  · intro h three a b c d e chars s h2 rest hok
    simp only [MDMSCmd, readFixedResponse, length_trunc16] at hok
    simp only [Int.natCast_nonneg, not_lt.mpr, if_neg, Int.toNat_natCast, if_false] at hok
    by_cases hlt : s.length < 21 + min chars.length 16
    · simp only [if_pos hlt] at hok
      simp at hok
    · simp only [if_neg hlt] at hok
      split at hok
      · simp at hok
      next heq =>
        simp only [Outcome.ok.injEq, Prod.mk.injEq] at hok
        exact ⟨hok.2.symm, heq⟩
  · intro h three a b c d e chars s hlt
    simp only [MDMSCmd, readFixedResponse, length_trunc16]
    simp only [Int.natCast_nonneg, not_lt.mpr, if_neg, Int.toNat_natCast, if_false]
    rw [if_pos hlt]
  · intro h three a b c chars s h2 rest hok
    simp only [GDGSCommand, readFixedResponse, length_trunc16] at hok
    simp only [Int.natCast_nonneg, not_lt.mpr, if_neg, Int.toNat_natCast, if_false] at hok
    by_cases hlt : s.length < 18 + min chars.length 16
    · simp only [if_pos hlt] at hok
      simp at hok
    · simp only [if_neg hlt] at hok
      split at hok
      · simp at hok
      next heq =>
        simp only [Outcome.ok.injEq, Prod.mk.injEq] at hok
        exact ⟨hok.2.symm, heq⟩
  · intro h three a b c chars s hlt
    simp only [GDGSCommand, readFixedResponse, length_trunc16]
    simp only [Int.natCast_nonneg, not_lt.mpr, if_neg, Int.toNat_natCast, if_false]
    rw [if_pos hlt]

/-- C2 witness: the header characterisation applied to a successful
`MDMSCmd` with empty trailing string over a 21-byte stream. -/
theorem c2_header_length_witness :
    ([] : List Nat) = (List.replicate 21 0x30).drop (21 + min ([] : List Nat).length 16)
    ∧ statusCheck ((((List.replicate 21 0x30).take (21 + min ([] : List Nat).length 16)).drop
        (21 + min ([] : List Nat).length 16 - 5)).take 2) = none :=
  c2_header_length_amended.1 NewHokuyoLidar true 0 0 0 0 0 []
    (List.replicate 21 0x30)
    { NewHokuyoLidar with
        startStep := 0, endStep := 0, clusterCount := 0, scanInterval := 0,
        encodingType := threeEncoding, headSize := 21, requestTag := mTag }
    [] (by decide)

/-- Lengths of the two dealt-out lists. -/
theorem alternate_lengths {α : Type} (l : List α) :
    (alternate l).1.length = (l.length + 1) / 2
    ∧ (alternate l).2.length = l.length / 2 := by
  induction l with
  | nil => simp [alternate]
  | cons x r ih =>
    obtain ⟨h1, h2⟩ := ih
    simp only [alternate, List.length_cons]
    omega

/-- The 3-byte demultiplexing loop deals the decoded 3-byte groups out
alternately; an odd running counter sends the next group to the first
(distance) list, an even one to the second (intensity) list. -/
theorem diLoop_eq_alternate :
    ∀ (data : List Nat) (count : Nat),
      diLoop data [] count =
        if count % 2 = 1 then alternate ((groups3 data).map decode)
        else (((alternate ((groups3 data).map decode)).2,
               (alternate ((groups3 data).map decode)).1))
  | [], count => by
    simp only [diLoop, groups3, List.map_nil, alternate]
    split <;> rfl
  | [a], count => by
    simp only [diLoop, groups3, List.nil_append, List.length_cons, List.length_nil]
    norm_num
    simp only [List.map_nil, alternate]
    split <;> rfl
  | [a, b], count => by
    simp only [diLoop, groups3, List.nil_append, List.cons_append,
      List.length_cons, List.length_nil]
    norm_num
    simp only [List.map_nil, alternate]
    split <;> rfl
  | a :: b :: c :: rest, count => by
    have ih := diLoop_eq_alternate rest (count + 1)
    simp only [diLoop, groups3, List.nil_append, List.cons_append,
      List.length_cons, List.length_nil, List.map_cons]
    norm_num
    rcases Nat.mod_two_eq_zero_or_one count with hpar | hpar
    · have hpar1 : (count + 1) % 2 = 1 := by omega
      rw [hpar1] at ih
      simp only [if_pos hpar1] at ih
      rw [if_neg (by omega), ih]
      simp [alternate, hpar]
    · have hpar1 : (count + 1) % 2 = 0 := by omega
      simp only [if_neg (by omega : ¬(count + 1) % 2 = 1)] at ih
      rw [ih]
      simp [alternate, hpar]

/-- C10: on every successful `GetDistanceAndIntensity` the accumulated
payload is demultiplexed in fixed 3-byte groups - the configured encoding
width is never consulted - alternating starting with a distance
(odd-numbered groups are distances, even-numbered ones intensities, the
sub-3-byte remainder is dropped), so the distance count exceeds the
intensity count by 0 or 1. -/
theorem c10_demux :
    (∀ data : List Nat, diLoop data [] 1 = alternate ((groups3 data).map decode))
    ∧ (∀ (h : HokuyoLidar) (e : Nat) (s : List Nat),
        GetDistanceAndIntensity { h with encodingType := e } s
          = GetDistanceAndIntensity h s)
    ∧ (∀ (h : HokuyoLidar) (s : List Nat) (d i : List Nat) (t : Nat),
        GetDistanceAndIntensity h s = Outcome.ok (d, i, t) →
          i.length ≤ d.length ∧ d.length ≤ i.length + 1) := by
  refine ⟨?_, ?_, ?_⟩
  · intro data
    have h := diLoop_eq_alternate data 1
    simpa using h
  · intro h e s
    simp [GetDistanceAndIntensity]
  · intro h s d i t hok
    simp only [GetDistanceAndIntensity] at hok
    split at hok
    · simp at hok
    · simp at hok
    · split at hok
      · simp at hok
      · simp at hok
      · split at hok
        · simp at hok
        · split at hok
          · simp at hok
          · simp at hok
          · split at hok
            · simp at hok
            · simp at hok
            next data _ heq =>
              simp only [Outcome.ok.injEq, Prod.mk.injEq] at hok
              obtain ⟨hd, hi, ht⟩ := hok
              have hone := diLoop_eq_alternate data 1
              norm_num at hone
              have hlen := alternate_lengths ((groups3 data).map decode)
              rw [← hd, ← hi, hone]
              omega

/-- C10 witness: a successful fetch over one 66-byte chunk of `'0'`
bytes yields 11 distances and 10 intensities. -/
theorem c10_demux_witness :
    (List.replicate 10 (0 : Nat)).length ≤ (List.replicate 11 (0 : Nat)).length
    ∧ (List.replicate 11 (0 : Nat)).length ≤ (List.replicate 10 (0 : Nat)).length + 1 :=
  c10_demux.2.2 { NewHokuyoLidar with requestTag := mTag, headSize := 0 }
    ([0x30, 0x30, 0x30, 0x30] ++ List.replicate 6 0x30
      ++ List.replicate 66 0x30 ++ [lf])
    (List.replicate 11 0) (List.replicate 10 0) 0 (by decide)

/-- Total length of a list of 66-byte chunks. -/
theorem flatten_length_66 :
    ∀ chunks : List (List Nat), (∀ c ∈ chunks, c.length = 66) →
      chunks.flatten.length = 66 * chunks.length := by
  intro chunks
  induction chunks with
  | nil => simp
  | cons c rest ih =>
    intro hc
    simp only [List.flatten_cons, List.length_append, List.length_cons]
    rw [hc c (by simp), ih (fun x hx => hc x (by simp [hx]))]
    ring

/-- Total length of the payload assembled from the first 64 bytes of each
66-byte chunk. -/
theorem payload_length_64 :
    ∀ chunks : List (List Nat), (∀ c ∈ chunks, c.length = 66) →
      ((chunks.map (fun c => c.take 64)).flatten).length = 64 * chunks.length := by
  intro chunks
  induction chunks with
  | nil => simp
  | cons c rest ih =>
    intro hc
    simp only [List.map_cons, List.flatten_cons, List.length_append,
      List.length_cons, List.length_take]
    rw [hc c (by simp), ih (fun x hx => hc x (by simp [hx]))]
    ring_nf
    omega

/-- The chunk loop on a stream made of whole 66-byte chunks, of which
exactly the last carries the `"00"` marker, assembles the first 64 bytes
of every chunk in order and leaves the rest of the stream unread. -/
theorem readScanChunksAux_spec :
    ∀ (chunks : List (List Nat)) (fuel : Nat) (tail : List Nat)
      (hne : chunks ≠ []) (hfuel : chunks.length ≤ fuel)
      (hclen : ∀ c ∈ chunks, c.length = 66)
      (hlast : ((chunks.getLast hne).drop 13).take 2 = [0x30, 0x30])
      (hmid : ∀ c ∈ chunks.dropLast, ¬((c.drop 13).take 2 = [0x30, 0x30])),
      readScanChunksAux fuel (chunks.flatten ++ tail)
        = Outcome.ok ((chunks.map (fun c => c.take 64)).flatten, tail)
  | [], _, _, hne, _, _, _, _ => absurd rfl hne
  | [c], fuel, tail, hne, hfuel, hclen, hlast, hmid => by
    match fuel, hfuel with
    | fuel + 1, _ =>
      have hc : c.length = 66 := hclen c (by simp)
      simp only [List.flatten_cons, List.flatten_nil, List.append_nil]
      simp only [readScanChunksAux]
      rw [if_neg (by simp [hc])]
      rw [List.take_left' hc, List.drop_left' hc]
      simp only [List.getLast_singleton] at hlast
      rw [if_pos hlast]
      simp
  | c :: c2 :: rest, fuel, tail, hne, hfuel, hclen, hlast, hmid => by
    match fuel, hfuel with
    | fuel + 1, hfuel =>
      have hc : c.length = 66 := hclen c (by simp)
      have hrec := readScanChunksAux_spec (c2 :: rest) fuel tail (by simp)
        (by simp at hfuel ⊢; omega)
        (fun x hx => hclen x (by simp [hx]))
        (by rw [← List.getLast_cons (l := c2 :: rest) (by simp)]; exact hlast)
        (fun x hx => hmid x (by rw [List.dropLast_cons₂]; simp [hx]))
      rw [List.flatten_cons, List.append_assoc]
      simp only [readScanChunksAux]
      rw [if_neg (by simp [hc])]
      rw [List.take_left' hc, List.drop_left' hc]
      rw [if_neg (hmid c (by rw [List.dropLast_cons₂]; simp))]
      rw [hrec]
      simp

/-- Exact read of a leading block: `readFixedResponse` returns the block
and the rest of the stream. -/
theorem readFixedResponse_exact (k : Int) (a b : List Nat)
    (hk : 0 ≤ k) (ha : (a.length : Int) = k) :
    readFixedResponse k (a ++ b) = Outcome.ok (a, b) := by
  simp only [readFixedResponse]
  rw [if_neg (by omega)]
  have hkn : k.toNat = a.length := by omega
  rw [hkn, if_neg (by simp only [List.length_append]; omega),
    List.take_left' rfl, List.drop_left' rfl]

/-- Sample count produced by the `GetDistance` demultiplexing loop. -/
theorem distLoop_length (k : Nat) (hk : 0 < k) :
    ∀ (data acc : List Nat), acc.length < k →
      (distLoop k data acc).length = (acc.length + data.length) / k
  | [], acc => by
    intro hacc
    simp only [distLoop, List.length_nil, Nat.add_zero, Nat.div_eq_of_lt hacc]
  | v :: rest, acc => by
    intro hacc
    simp only [distLoop]
    by_cases hlen : (acc ++ [v]).length = k
    · rw [if_pos hlen]
      simp only [List.length_cons]
      rw [distLoop_length k hk rest [] (by simpa using hk)]
      simp only [List.length_nil, Nat.zero_add]
      have hk' : acc.length + 1 = k := by simpa using hlen
      have he : acc.length + (rest.length + 1) = rest.length + k := by omega
      rw [he, Nat.add_div_right _ hk]
    · rw [if_neg hlen]
      have hlt : (acc ++ [v]).length < k := by
        simp only [List.length_append, List.length_cons, List.length_nil] at *
        omega
      rw [distLoop_length k hk rest (acc ++ [v]) hlt]
      simp only [List.length_append, List.length_cons, List.length_nil]
      congr 1
      omega

/-- C1: a successful `GetDistance` reassembles the payload by reading
66-byte chunks, keeping the first 64 bytes of each, stopping at the chunk
whose marker bytes (offsets 13-14) read `"00"`; over `N` whole chunks the
decoded sample count is `N * 64 / bytes_per_sample`. -/
theorem c1_scan_reassembly (h : HokuyoLidar)
    (hd statusAndJunk tm tail : List Nat) (chunks : List (List Nat))
    (hreq : h.requestTag = mTag)
    (hhd : hd.length = 16) (hsj : statusAndJunk.length = 4)
    (hst : statusAndJunk.take 2 = [0x30, 0x30]) (htm : tm.length = 6)
    (hne : chunks ≠ [])
    (hclen : ∀ c ∈ chunks, c.length = 66)
    (hlast : ((chunks.getLast hne).drop 13).take 2 = [0x30, 0x30])
    (hmid : ∀ c ∈ chunks.dropLast, ¬((c.drop 13).take 2 = [0x30, 0x30])) :
    GetDistance h (hd ++ (statusAndJunk ++ (tm ++ (chunks.flatten ++ tail))))
      = Outcome.ok
          (distLoop (if h.encodingType = threeEncoding then 3 else 2)
            ((chunks.map (fun c => c.take 64)).flatten) [],
           decode (tm.take 4))
    ∧ (distLoop (if h.encodingType = threeEncoding then 3 else 2)
        ((chunks.map (fun c => c.take 64)).flatten) []).length
      = chunks.length * 64 / (if h.encodingType = threeEncoding then 3 else 2) := by
  have hF : chunks.flatten.length = 66 * chunks.length := flatten_length_66 chunks hclen
  constructor
  · have e1 : readFixedResponse 16
        (hd ++ (statusAndJunk ++ (tm ++ (chunks.flatten ++ tail))))
        = Outcome.ok (hd, statusAndJunk ++ (tm ++ (chunks.flatten ++ tail))) :=
      readFixedResponse_exact 16 hd _ (by norm_num) (by rw [hhd]; rfl)
    have e2 : readFixedResponse 4
        (statusAndJunk ++ (tm ++ (chunks.flatten ++ tail)))
        = Outcome.ok (statusAndJunk, tm ++ (chunks.flatten ++ tail)) :=
      readFixedResponse_exact 4 _ _ (by norm_num) (by rw [hsj]; rfl)
    have e3 : readFixedResponse 6 (tm ++ (chunks.flatten ++ tail))
        = Outcome.ok (tm, chunks.flatten ++ tail) :=
      readFixedResponse_exact 6 tm _ (by norm_num) (by rw [htm]; rfl)
    have e4 : readScanChunks (chunks.flatten ++ tail)
        = Outcome.ok ((chunks.map (fun c => c.take 64)).flatten, tail) := by
      rw [readScanChunks]
      exact readScanChunksAux_spec chunks _ tail hne
        (by simp only [List.length_append, hF]; omega) hclen hlast hmid
    have e6 : statusCheck [0x30, 0x30] = none := rfl
    simp only [GetDistance, hreq, if_true, e1, e2, hst, e6, e3, e4]
  · have hkpos : 0 < (if h.encodingType = threeEncoding then 3 else 2) := by
      split <;> norm_num
    rw [distLoop_length _ hkpos _ [] (by simpa using hkpos)]
    simp only [List.length_nil, Nat.zero_add]
    rw [payload_length_64 chunks hclen, Nat.mul_comm 64 chunks.length]

/-- C1 witness: the reassembly theorem evaluated on a single all-`'0'`
66-byte chunk under three-character encoding: 64 / 3 = 21 samples. -/
theorem c1_scan_reassembly_witness :
    GetDistance { NewHokuyoLidar with requestTag := mTag, encodingType := threeEncoding }
        (List.replicate 16 0x30 ++ (List.replicate 4 0x30 ++ (List.replicate 6 0x30
          ++ (([List.replicate 66 0x30] : List (List Nat)).flatten ++ [lf]))))
      = Outcome.ok
          (distLoop
            (if ({ NewHokuyoLidar with requestTag := mTag, encodingType := threeEncoding } : HokuyoLidar).encodingType = threeEncoding then 3 else 2)
            ((([List.replicate 66 0x30] : List (List Nat)).map
              (fun c => c.take 64)).flatten) [],
           decode ((List.replicate 6 0x30).take 4))
    ∧ (distLoop
        (if ({ NewHokuyoLidar with requestTag := mTag, encodingType := threeEncoding } : HokuyoLidar).encodingType = threeEncoding then 3 else 2)
        ((([List.replicate 66 0x30] : List (List Nat)).map
          (fun c => c.take 64)).flatten) []).length
      = ([List.replicate 66 0x30] : List (List Nat)).length * 64
        / (if ({ NewHokuyoLidar with requestTag := mTag, encodingType := threeEncoding } : HokuyoLidar).encodingType = threeEncoding then 3 else 2) :=
  c1_scan_reassembly
    { NewHokuyoLidar with requestTag := mTag, encodingType := threeEncoding }
    (List.replicate 16 0x30) (List.replicate 4 0x30) (List.replicate 6 0x30) [lf]
    [List.replicate 66 0x30]
    rfl (by decide) (by decide) (by decide) (by decide) (by decide)
    (by decide) (by decide) (by decide)

end GoHokuyoLidar
